import Mathlib

/-!
Shallow embedding of the EC2 cloud controller (`nova/api/ec2/cloud.py`).

Pure functions of the source are translated to Lean functions; stateful
database-backed operations are modelled by explicit state passing (the
relevant table is a list of records given as an argument and returned,
possibly updated).  Machine integers of the source are `Nat`/`Int`;
fallible code returns `Except Err`.  External collaborators (the `db`
layer, `crypto`, `compute_api`, `IPy`) enter as function arguments or,
where only the natural-language specification describes them, as
definitions explicitly marked as modelled from the spec.
-/

namespace NovaEc2

/-- Exception kinds raised by the translated code paths: `exception.NotFound`,
`exception.Duplicate`, `InvalidInputException`, `exception.ApiError`, Python
`ValueError` (from `int(...)` and `IPy.IP(...)`), `AssertionError` (from
`assert`), and `IndexError` (from `instances[0]`). -/
inductive Err where
  | notFound
  | duplicate (msg : String)
  | invalidInput (msg : String)
  | apiError (msg : String)
  | valueError
  | assertionError
  | indexError
deriving Repr, DecidableEq

/-- Python truthiness of an optional string argument (`if x:`): present and
nonempty. -/
def pyTruthy (o : Option String) : Bool :=
  match o with
  | none => false
  | some s => !s.isEmpty

/-- Python `str.upper()` on ASCII protocol names: uppercase each character. -/
def pyUpper (s : String) : String :=
  String.mk (s.data.map Char.toUpper)

/-- The whitespace characters stripped by Python `int(str)` before parsing:
space, tab, newline, carriage return, vertical tab, form feed. -/
def pyIsSpace (c : Char) : Bool :=
  c == ' ' || c == '\t' || c == '\n' || c == '\r' || c == '\x0b' || c == '\x0c'

/-- Strip leading and trailing whitespace, as Python `int(str, base)` does. -/
def pyStrip (cs : List Char) : List Char :=
  ((cs.dropWhile pyIsSpace).reverse.dropWhile pyIsSpace).reverse

/-- Value of one digit character under Python `int(s, base)`:
ASCII `0`-`9` (codes 48-57) are 0-9, `a`-`z` (97-122) and `A`-`Z` (65-90)
are 10-35; a digit whose value reaches the base is invalid. -/
def pyDigitVal (b : Nat) (c : Char) : Option Nat :=
  let v : Option Nat :=
    if 48 ≤ c.toNat && c.toNat ≤ 57 then some (c.toNat - 48)
    else if 97 ≤ c.toNat && c.toNat ≤ 122 then some (c.toNat - 97 + 10)
    else if 65 ≤ c.toNat && c.toNat ≤ 90 then some (c.toNat - 65 + 10)
    else none
  v.bind (fun d => if d < b then some d else none)

/-- Accumulate the value of a digit string left to right; `none` on the first
invalid digit. -/
def parseDigitsAux (b : Nat) (acc : Nat) : List Char → Option Nat
  | [] => some acc
  | c :: cs =>
    match pyDigitVal b c with
    | some v => parseDigitsAux b (acc * b + v) cs
    | none => none

/-- A nonempty all-valid digit string and its value, else `none`. -/
def pyParseDigits (b : Nat) (cs : List Char) : Option Nat :=
  match cs with
  | [] => none
  | _ => parseDigitsAux b 0 cs

/-- Python `int(s, b)`: strip surrounding whitespace, allow one optional
leading sign, then a nonempty digit string; raises `ValueError` otherwise. -/
def pyInt (b : Nat) (s : String) : Except Err Int :=
  match pyStrip s.data with
  | [] => .error .valueError
  | c :: rest =>
    if c == '+' then
      match pyParseDigits b rest with
      | some n => .ok (n : Int)
      | none => .error .valueError
    else if c == '-' then
      match pyParseDigits b rest with
      | some n => .ok (-(n : Int))
      | none => .error .valueError
    else
      match pyParseDigits b (c :: rest) with
      | some n => .ok (n : Int)
      | none => .error .valueError

/-- The digit table `'0123456789abcdefghijklmnopqrstuvwxyz'[d]` of
`id_to_ec2_id`. -/
def base36DigitChar (d : Nat) : Char :=
  "0123456789abcdefghijklmnopqrstuvwxyz".data.getD d ' '

/-- The digit-collecting `while` loop of `id_to_ec2_id`, fuel-bounded so that
it is structurally recursive (`n / 36 < n` for `n > 0`, so fuel `n` always
suffices).  The source appends digits least-significant first and reverses at
the end; this recursion produces the reversed (most-significant-first) list
directly. -/
def toBase36DigitsFuel : Nat → Nat → List Char
  | 0, _ => []
  | fuel + 1, n =>
    if n = 0 then []
    else toBase36DigitsFuel fuel (n / 36) ++ [base36DigitChar (n % 36)]

/-- Digit list of `id_to_ec2_id`, most significant first; empty for 0. -/
def toBase36Digits (n : Nat) : List Char :=
  toBase36DigitsFuel n n

/-- `id_to_ec2_id`: convert an instance id (int) to an ec2 id
(`i-` + base-36 digits). -/
def id_to_ec2_id (instance_id : Nat) : String :=
  "i-" ++ String.mk (toBase36Digits instance_id)

/-- `ec2_id_to_id`: `int(ec2_id[2:], 36)` — drop the first two characters of
the string (the slice never checks what they are) and parse the remainder as a
Python base-36 integer literal. -/
def ec2_id_to_id (ec2_id : String) : Except Err Int :=
  pyInt 36 (String.mk (ec2_id.data.drop 2))

/-- Characters accepted as base-36 digits by Python, written as the explicit
ASCII ranges of the digit classes 0-9, a-z, A-Z. -/
def isBase36CharCI (c : Char) : Bool :=
  (48 ≤ c.toNat && c.toNat ≤ 57) || (97 ≤ c.toNat && c.toNat ≤ 122) ||
    (65 ≤ c.toNat && c.toNat ≤ 90)

/-- Acceptance language of the decoder, stated independently of the parser:
after dropping two characters and stripping surrounding whitespace, an
optional single sign followed by a nonempty run of base-36 digit characters
(case-insensitive). -/
def looseBase36String (cs : List Char) : Bool :=
  match pyStrip cs with
  | [] => false
  | c :: rest =>
    if c == '+' || c == '-' then !rest.isEmpty && rest.all isBase36CharCI
    else (c :: rest).all isBase36CharCI

/-- Modelled from the spec: the third-party `IPy.IP(cidr_ip)` constructor
used by `_revoke_rule_args_to_dict` (an external library, not part of this
repository) which "validate[s] it is a syntactically well-formed IP network"
and throws on failure.  Modelled for IPv4 dotted-quad networks: four octets
0-255, with an optional prefix length 0-32. -/
def ipy_IP_valid (s : String) : Bool :=
  let checkOctets : List String → Bool := fun parts =>
    parts.length == 4 &&
      parts.all (fun p =>
        !p.isEmpty && p.data.all (fun c => 48 ≤ c.toNat && c.toNat ≤ 57) &&
          (match p.toNat? with
           | some v => v ≤ 255
           | none => false))
  match s.splitOn "/" with
  | [addr] => checkOctets (addr.splitOn ".")
  | [addr, plen] =>
    checkOctets (addr.splitOn ".") &&
      (match plen.toNat? with
       | some v => v ≤ 32
       | none => false)
  | _ => false

/-- Canonical value set produced by `_revoke_rule_args_to_dict`: a Python
dict whose keys are present or absent, rendered as a record of optional
fields (`none` = key absent). -/
structure RuleValues where
  group_id : Option Nat := none
  cidr : Option String := none
  protocol : Option String := none
  from_port : Option Int := none
  to_port : Option Int := none
  parent_group_id : Option Nat := none
deriving Repr, DecidableEq

/-- A stored security-group rule row.  Every column exists on the row; a
column may hold SQL/Python `None` (`none` here). -/
structure Rule where
  group_id : Option Nat := none
  cidr : Option String := none
  protocol : Option String := none
  from_port : Option Int := none
  to_port : Option Int := none
  parent_group_id : Option Nat := none
deriving Repr, DecidableEq

/-- A security group: project-owned, named, with an ordered rule list. -/
structure SecurityGroup where
  id : Nat
  name : String
  project_id : String
  description : String
  rules : List Rule
deriving Repr, DecidableEq

/-- `_get_source_project_id`: parse `user:project` from the owner qualifier;
a single component is used directly, two components select the second, and
an absent qualifier defaults to the caller's project. -/
def get_source_project_id (context_project_id : String)
    (source_security_group_owner_id : Option String) : String :=
  if pyTruthy source_security_group_owner_id then
    let source_parts := (source_security_group_owner_id.getD "").splitOn ":"
    if source_parts.length == 2 then source_parts.getD 1 ""
    else source_parts.getD 0 ""
  else context_project_id

/-- `_revoke_rule_args_to_dict`.  The `db.security_group_get_by_name` lookup
of the source group (under the elevated context) is the collaborator argument
`lookup : project_id → group_name → Option group_id`; `none` raises NotFound.
Returns `.ok none` for the "no rule produced" signal (Python `None`). -/
def revoke_rule_args_to_dict
    (lookup : String → String → Option Nat) (context_project_id : String)
    (to_port from_port ip_protocol cidr_ip
      source_security_group_name source_security_group_owner_id : Option String) :
    Except Err (Option RuleValues) :=
  let step1 : Except Err RuleValues :=
    if pyTruthy source_security_group_name then
      let source_project_id :=
        get_source_project_id context_project_id source_security_group_owner_id
      match lookup source_project_id (source_security_group_name.getD "") with
      | none => .error .notFound
      | some gid => .ok { group_id := some gid }
    else if pyTruthy cidr_ip then
      -- If this fails, it throws an exception.  This is what we want.
      if ipy_IP_valid (cidr_ip.getD "") then .ok { cidr := cidr_ip }
      else .error .valueError
    else .ok { cidr := some "0.0.0.0/0" }
  match step1 with
  | .error e => .error e
  | .ok values =>
    if pyTruthy ip_protocol && pyTruthy from_port && pyTruthy to_port then
      match pyInt 10 (from_port.getD "") with
      | .error e => .error e
      | .ok fp =>
        match pyInt 10 (to_port.getD "") with
        | .error e => .error e
        | .ok tp =>
          let proto := ip_protocol.getD ""
          if (["TCP", "UDP", "ICMP"].contains (pyUpper proto)) = false then
            .error (.invalidInput (proto ++ " is not a valid ipProtocol"))
          else if min fp tp < -1 ∨ max fp tp > 65535 then
            .error (.invalidInput "Invalid port range")
          else
            .ok (some { values with
              protocol := some proto, from_port := some fp, to_port := some tp })
    else
      -- If cidr based filtering, protocol and ports are mandatory
      if values.cidr.isSome then .ok none else .ok (some values)

/-- `_security_group_rule_exists`: a value set keyed by `group_id` matches a
rule iff the rule's `group_id` equals it; otherwise all of `cidr`,
`from_port`, `to_port`, `protocol` must be equal.  (In the source the second
branch reads `values[key]`; value sets reaching it always carry all four
keys, as produced by the canonicalizer.) -/
def security_group_rule_exists (rules : List Rule) (values : RuleValues) : Bool :=
  rules.any fun rule =>
    match values.group_id with
    | some gid => rule.group_id == some gid
    | none =>
      rule.cidr == values.cidr && rule.from_port == values.from_port &&
        rule.to_port == values.to_port && rule.protocol == values.protocol

/-- `db.security_group_rule_create(context, values)`: the stored rule row
holds exactly the columns of the value set. -/
def rule_of_values (v : RuleValues) : Rule :=
  { group_id := v.group_id, cidr := v.cidr, protocol := v.protocol,
    from_port := v.from_port, to_port := v.to_port,
    parent_group_id := v.parent_group_id }

/-- `authorize_security_group_ingress` on one security group (the group named
by the call, already fetched): canonicalize, reject an underspecified rule,
stamp the parent group, reject a duplicate, else persist the new rule.
Returns the updated group (the source returns `True`). -/
def authorize_security_group_ingress
    (lookup : String → String → Option Nat) (context_project_id : String)
    (security_group : SecurityGroup)
    (to_port from_port ip_protocol cidr_ip
      source_security_group_name source_security_group_owner_id : Option String) :
    Except Err SecurityGroup :=
  match revoke_rule_args_to_dict lookup context_project_id to_port from_port
      ip_protocol cidr_ip source_security_group_name
      source_security_group_owner_id with
  | .error e => .error e
  | .ok none => .error (.apiError "Not enough parameters to build a valid rule.")
  | .ok (some values0) =>
    let values := { values0 with parent_group_id := some security_group.id }
    if security_group_rule_exists security_group.rules values then
      .error (.apiError ("This rule already exists in group " ++ security_group.name))
    else
      .ok { security_group with
        rules := security_group.rules ++ [rule_of_values values] }

/-- The revocation match loop body: `getattr(rule, k, False) != v` over the
keys present in the criteria dict — absent keys are not compared. -/
def rule_matches_criteria (rule : Rule) (criteria : RuleValues) : Bool :=
  (match criteria.group_id with
   | some v => rule.group_id == some v
   | none => true) &&
  (match criteria.cidr with
   | some v => rule.cidr == some v
   | none => true) &&
  (match criteria.protocol with
   | some v => rule.protocol == some v
   | none => true) &&
  (match criteria.from_port with
   | some v => rule.from_port == some v
   | none => true) &&
  (match criteria.to_port with
   | some v => rule.to_port == some v
   | none => true) &&
  (match criteria.parent_group_id with
   | some v => rule.parent_group_id == some v
   | none => true)

/-- Destroy the first rule of the list matching the criteria
(`db.security_group_rule_destroy` on the first match, then return);
`none` when no rule matches. -/
def revoke_first_match (rules : List Rule) (criteria : RuleValues) :
    Option (List Rule) :=
  match rules with
  | [] => none
  | r :: rest =>
    if rule_matches_criteria r criteria then some rest
    else
      match revoke_first_match rest criteria with
      | some rest2 => some (r :: rest2)
      | none => none

/-- `revoke_security_group_ingress` on one security group: canonicalize into
a criteria dict, reject an underspecified rule, then destroy the first rule
matching on every present criteria field; ApiError when none matches.
Returns the updated group (the source returns `True`). -/
def revoke_security_group_ingress
    (lookup : String → String → Option Nat) (context_project_id : String)
    (security_group : SecurityGroup)
    (to_port from_port ip_protocol cidr_ip
      source_security_group_name source_security_group_owner_id : Option String) :
    Except Err SecurityGroup :=
  match revoke_rule_args_to_dict lookup context_project_id to_port from_port
      ip_protocol cidr_ip source_security_group_name
      source_security_group_owner_id with
  | .error e => .error e
  | .ok none => .error (.apiError "Not enough parameters to build a valid rule.")
  | .ok (some criteria) =>
    match revoke_first_match security_group.rules criteria with
    | some newRules => .ok { security_group with rules := newRules }
    | none => .error (.apiError "No rule for the specified parameters.")

/-- A stored key pair (`db` key_pairs table row). -/
structure KeyPair where
  user_id : String
  name : String
  public_key : String
  fingerprint : String
deriving Repr, DecidableEq

/-- Output of the collaborator `crypto.generate_key_pair()`. -/
structure KeyMaterial where
  private_key : String
  public_key : String
  fingerprint : String
deriving Repr, DecidableEq

/-- `db.key_pair_get`: first stored pair of this user and name. -/
def key_pair_get (st : List KeyPair) (user_id key_name : String) :
    Option KeyPair :=
  st.find? fun kp => kp.user_id == user_id && kp.name == key_name

/-- `_gen_key`: check for an existing pair (Duplicate if found, NotFound
swallowed), only then generate material and store the pair.  The generation
collaborator's output is the argument `generated`; the returned state is the
key-pair table after the call. -/
def gen_key (st : List KeyPair) (user_id key_name : String)
    (generated : KeyMaterial) :
    Except Err (String × String) × List KeyPair :=
  match key_pair_get st user_id key_name with
  | some _ =>
    (.error (.duplicate ("The key_pair " ++ key_name ++ " already exists")), st)
  | none =>
    let key : KeyPair :=
      { user_id := user_id, name := key_name,
        public_key := generated.public_key,
        fingerprint := generated.fingerprint }
    (.ok (generated.private_key, generated.fingerprint), st ++ [key])

/-- `create_key_pair`: delegate to `_gen_key` and shape the response
(keyName, keyFingerprint, keyMaterial). -/
def create_key_pair (st : List KeyPair) (user_id key_name : String)
    (generated : KeyMaterial) :
    Except Err (String × String × String) × List KeyPair :=
  match gen_key st user_id key_name generated with
  | (.error e, st2) => (.error e, st2)
  | (.ok (private_key, fingerprint), st2) =>
    (.ok (key_name, fingerprint, private_key), st2)

/-- `db.key_pair_destroy`: remove the caller's pair of that name, NotFound
when absent. -/
def key_pair_destroy (st : List KeyPair) (user_id key_name : String) :
    Except Err (List KeyPair) :=
  if (key_pair_get st user_id key_name).isSome then
    .ok (st.filter fun kp => !(kp.user_id == user_id && kp.name == key_name))
  else .error .notFound

/-- `delete_key_pair`: destroy, swallowing NotFound (aws returns true even if
the key does not exist); always returns `True`. -/
def delete_key_pair (st : List KeyPair) (user_id key_name : String) :
    Bool × List KeyPair :=
  match key_pair_destroy st user_id key_name with
  | .ok st2 => (true, st2)
  | .error _ => (true, st)

/-- Python string interpolation of a possibly-`None` value
(`'%s' % x` prints `None` for `None`). -/
def pyShowOpt (o : Option String) : String :=
  o.getD "None"

/-- Python `a or b` over optional strings: `a` when truthy, else `b`
(`None` and the empty string are falsy). -/
def pyOr (a b : Option String) : Option String :=
  if pyTruthy a then a else b

/-- The instance record referenced by a volume (`volume['instance']`). -/
structure VolInstance where
  id : Nat
  host : String
deriving Repr, DecidableEq

/-- An internal volume record as consumed by `_format_volume`.  The source's
`instance` key is `instance_ref` here because `instance` is reserved in
Lean. -/
structure Volume where
  id : Nat
  status : String
  size : Nat
  availability_zone : String
  created_at : String
  user_id : String
  host : String
  mountpoint : String
  attach_status : String
  attach_time : String
  ec2_id : String
  display_name : Option String
  display_description : Option String
  instance_ref : Option VolInstance
deriving Repr, DecidableEq

/-- One entry of a formatted volume's `attachmentSet`: either the empty
placeholder dict `{}` or the populated attachment dict. -/
inductive AttachmentEntry where
  | empty
  | entry (attachTime : String) (deleteOnTermination : Bool) (device : String)
      (instanceId : Option String) (status : String) (volume_id : String)
deriving Repr, DecidableEq

/-- External shape produced by `_format_volume`. -/
structure FormattedVolume where
  volumeId : Nat
  status : String
  size : Nat
  availabilityZone : String
  createTime : String
  attachmentSet : List AttachmentEntry
  display_name : Option String
  display_description : Option String
deriving Repr, DecidableEq

/-- `_format_volume`: project a volume record to the external shape; an admin
caller sees the composite diagnostic status; the attachment set holds the
populated entry when attach_status is "attached" and exactly one empty
placeholder entry otherwise. -/
def format_volume (is_admin : Bool) (volume : Volume) : FormattedVolume :=
  let instance_ec2_id : Option String :=
    volume.instance_ref.map (fun i => id_to_ec2_id i.id)
  let instance_data : Option String :=
    volume.instance_ref.map (fun i => id_to_ec2_id i.id ++ "[" ++ i.host ++ "]")
  let status :=
    if is_admin then
      volume.status ++ " (" ++ volume.user_id ++ ", " ++ volume.host ++ ", " ++
        pyShowOpt instance_data ++ ", " ++ volume.mountpoint ++ ")"
    else volume.status
  let attachmentSet :=
    if volume.attach_status == "attached" then
      [AttachmentEntry.entry volume.attach_time false volume.mountpoint
        instance_ec2_id "attached" volume.ec2_id]
    else [AttachmentEntry.empty]
  { volumeId := volume.id, status := status, size := volume.size,
    availabilityZone := volume.availability_zone,
    createTime := volume.created_at, attachmentSet := attachmentSet,
    display_name := volume.display_name,
    display_description := volume.display_description }

/-- A fixed network address record, with the addresses of its floating ips. -/
structure FixedIp where
  address : String
  floating_ips : List String
deriving Repr, DecidableEq

/-- An internal instance record as consumed by `_format_instances`. -/
structure Instance where
  id : Nat
  image_id : String
  state : Int
  state_description : String
  fixed_ip : Option FixedIp
  key_name : Option String
  project_id : String
  host : String
  instance_type : String
  created_at : String
  launch_index : Nat
  display_name : Option String
  display_description : Option String
  reservation_id : String
deriving Repr, DecidableEq

/-- External shape of one instance in a reservation's `instancesSet`. -/
structure FormattedInstance where
  instanceId : String
  imageId : String
  state_code : Int
  state_name : String
  privateDnsName : Option String
  publicDnsName : Option String
  dnsName : Option String
  keyName : Option String
  productCodesSet : Option (List (String × String))
  instanceType : String
  launchTime : String
  amiLaunchIndex : Nat
  displayName : Option String
  displayDescription : Option String
  placementZone : String
deriving Repr, DecidableEq

/-- External shape of one reservation entry of the `reservationSet`. -/
structure FormattedReservation where
  reservationId : String
  ownerId : String
  groupSet : Option (List (String × String))
  instancesSet : List FormattedInstance
deriving Repr, DecidableEq

/-- `_get_availability_zone_by_host`: the zone of the first service entry on
the host, `unknown zone` when the host has none.  The collaborator
`db.service_get_all_by_host` is the argument `services`, reduced to the
availability zones of the host's services. -/
def get_availability_zone_by_host (services : String → List String)
    (host : String) : String :=
  match services host with
  | [] => "unknown zone"
  | zone :: _ => zone

/-- `_convert_to_set`: `None` for an empty list, else one labelled singleton
dict per element. -/
def convert_to_set (lst : List String) (label : String) :
    Option (List (String × String)) :=
  if lst.isEmpty then none else some (lst.map fun x => (label, x))

/-- The per-instance body of `_format_instances`: identifier translation,
address derivation, admin key-name elaboration, zone lookup. -/
def format_one_instance (is_admin : Bool) (services : String → List String)
    (inst : Instance) : FormattedInstance :=
  let ec2_id := id_to_ec2_id inst.id
  let fixed_addr : Option String := inst.fixed_ip.map (fun f => f.address)
  let floating_addr : Option String :=
    match inst.fixed_ip with
    | none => none
    | some f =>
      match f.floating_ips with
      | [] => none
      | a :: _ => some a
  let keyName : Option String :=
    if is_admin then
      some (pyShowOpt inst.key_name ++ " (" ++ inst.project_id ++ ", " ++
        inst.host ++ ")")
    else inst.key_name
  { instanceId := ec2_id, imageId := inst.image_id,
    state_code := inst.state, state_name := inst.state_description,
    privateDnsName := fixed_addr, publicDnsName := floating_addr,
    dnsName := pyOr floating_addr fixed_addr, keyName := keyName,
    productCodesSet := convert_to_set [] "product_codes",
    instanceType := inst.instance_type, launchTime := inst.created_at,
    amiLaunchIndex := inst.launch_index, displayName := inst.display_name,
    displayDescription := inst.display_description,
    placementZone := get_availability_zone_by_host services inst.host }

/-- Insert a formatted instance into the reservations accumulator, creating
the reservation entry on first sight of its reservation id. -/
def add_to_reservations (acc : List FormattedReservation)
    (reservation_id owner : String) (fi : FormattedInstance) :
    List FormattedReservation :=
  match acc with
  | [] =>
    [{ reservationId := reservation_id, ownerId := owner,
       groupSet := convert_to_set [] "groups", instancesSet := [fi] }]
  | r :: rest =>
    if r.reservationId == reservation_id then
      { r with instancesSet := r.instancesSet ++ [fi] } :: rest
    else r :: add_to_reservations rest reservation_id owner fi

/-- `_format_instances` applied to an already-retrieved instance list (the
`compute_api.get_all` collaborator supplies the list): skip VPN-image
instances for non-admin callers, format each instance, and group by
reservation id.  The source accumulates into a Python 2 dict keyed by
reservation id and returns its values, whose order is unspecified; the model
keeps first-seen order, which the proved properties do not depend on. -/
def format_instances (is_admin : Bool) (vpn_image_id : String)
    (services : String → List String) (instances : List Instance) :
    List FormattedReservation :=
  instances.foldl
    (fun acc inst =>
      if !is_admin && inst.image_id == vpn_image_id then acc
      else
        add_to_reservations acc inst.reservation_id inst.project_id
          (format_one_instance is_admin services inst))
    []

/-- `_format_run_instances`: format the instances of the produced reservation
and `assert len(i) == 1`, returning the single entry. -/
def format_run_instances (is_admin : Bool) (vpn_image_id : String)
    (services : String → List String) (instances : List Instance) :
    Except Err FormattedReservation :=
  match format_instances is_admin vpn_image_id services instances with
  | [r] => .ok r
  | _ => .error .assertionError

/-- The count computation of `run_instances`:
`max_count = int(kwargs.get('max_count', 1))` then
`min_count = int(kwargs.get('min_count', max_count))`. -/
def run_counts (max_count min_count : Option String) :
    Except Err (Int × Int) :=
  match (match max_count with
         | none => Except.ok (1 : Int)
         | some s => pyInt 10 s) with
  | .error e => .error e
  | .ok mc =>
    match (match min_count with
           | none => Except.ok mc
           | some s => pyInt 10 s) with
    | .error e => .error e
    | .ok mn => .ok (mc, mn)

/-- `run_instances`: compute the counts, launch through the compute manager
(`create : min_count → max_count → created instances`, a collaborator), and
format the single reservation produced; `instances[0]` on an empty creation
is an IndexError.  `list_by_reservation` is the instance listing the
formatter performs for the produced reservation id. -/
def run_instances (max_count min_count : Option String)
    (create : Int → Int → List Instance)
    (list_by_reservation : String → List Instance)
    (is_admin : Bool) (vpn_image_id : String)
    (services : String → List String) :
    Except Err FormattedReservation :=
  match run_counts max_count min_count with
  | .error e => .error e
  | .ok (mc, mn) =>
    match create mn mc with
    | [] => .error .indexError
    | inst :: _ =>
      format_run_instances is_admin vpn_image_id services
        (list_by_reservation inst.reservation_id)

theorem dropWhile_all_false {p : Char → Bool} :
    ∀ {l : List Char}, (∀ c ∈ l, p c = false) → l.dropWhile p = l := by
  intro l h
  induction l with
  | nil => rfl
  | cons c cs ih =>
    rw [List.dropWhile_cons]
    rw [h c (List.mem_cons_self c cs)]
    simp

theorem pyStrip_eq_self {l : List Char} (h : ∀ c ∈ l, pyIsSpace c = false) :
    pyStrip l = l := by
  unfold pyStrip
  rw [dropWhile_all_false h]
  rw [dropWhile_all_false (by intro c hc; exact h c (List.mem_reverse.mp hc))]
  exact List.reverse_reverse l

theorem parseDigitsAux_append (b : Nat) :
    ∀ (l1 : List Char) (acc : Nat) (l2 : List Char),
      parseDigitsAux b acc (l1 ++ l2) =
        match parseDigitsAux b acc l1 with
        | some m => parseDigitsAux b m l2
        | none => none := by
  intro l1
  induction l1 with
  | nil => intro acc l2; rfl
  | cons c cs ih =>
    intro acc l2
    show parseDigitsAux b acc (c :: (cs ++ l2)) = _
    cases h : pyDigitVal b c with
    | none => simp [parseDigitsAux, h]
    | some v =>
      simp only [parseDigitsAux, h]
      exact ih (acc * b + v) l2

theorem base36DigitChar_props :
    ∀ d < 36, pyDigitVal 36 (base36DigitChar d) = some d ∧
      pyIsSpace (base36DigitChar d) = false ∧
      (base36DigitChar d == '+') = false ∧
      (base36DigitChar d == '-') = false := by decide

theorem toBase36DigitsFuel_irrel :
    ∀ f1 f2 n : Nat, n ≤ f1 → n ≤ f2 →
      toBase36DigitsFuel f1 n = toBase36DigitsFuel f2 n := by
  intro f1
  induction f1 with
  | zero =>
    intro f2 n h1 h2
    have hn : n = 0 := Nat.le_zero.mp h1
    subst hn
    cases f2 with
    | zero => rfl
    | succ g => simp [toBase36DigitsFuel]
  | succ f ih =>
    intro f2 n h1 h2
    cases f2 with
    | zero =>
      have hn : n = 0 := Nat.le_zero.mp h2
      subst hn
      simp [toBase36DigitsFuel]
    | succ g =>
      by_cases hn : n = 0
      · subst hn; simp [toBase36DigitsFuel]
      · have hlt : n / 36 < n := Nat.div_lt_self (Nat.pos_of_ne_zero hn) (by norm_num)
        have hf : n / 36 ≤ f := Nat.lt_succ_iff.mp (Nat.lt_of_lt_of_le hlt h1)
        have hg : n / 36 ≤ g := Nat.lt_succ_iff.mp (Nat.lt_of_lt_of_le hlt h2)
        show (if n = 0 then [] else toBase36DigitsFuel f (n / 36) ++ [base36DigitChar (n % 36)]) =
          (if n = 0 then [] else toBase36DigitsFuel g (n / 36) ++ [base36DigitChar (n % 36)])
        rw [if_neg hn, if_neg hn, ih g (n / 36) hf hg]

theorem toBase36Digits_zero : toBase36Digits 0 = [] := rfl

theorem toBase36Digits_eq (n : Nat) (h : n ≠ 0) :
    toBase36Digits n = toBase36Digits (n / 36) ++ [base36DigitChar (n % 36)] := by
  obtain ⟨m, rfl⟩ : ∃ m, n = m + 1 := ⟨n - 1, (Nat.succ_pred_eq_of_pos (Nat.pos_of_ne_zero h)).symm⟩
  show toBase36DigitsFuel (m + 1) (m + 1) = _
  have hlt : (m + 1) / 36 < m + 1 := Nat.div_lt_self (Nat.succ_pos m) (by norm_num)
  have hle : (m + 1) / 36 ≤ m := Nat.lt_succ_iff.mp hlt
  show (if m + 1 = 0 then [] else
      toBase36DigitsFuel m ((m + 1) / 36) ++ [base36DigitChar ((m + 1) % 36)]) = _
  rw [if_neg (Nat.succ_ne_zero m)]
  rw [toBase36DigitsFuel_irrel m ((m + 1) / 36) ((m + 1) / 36) hle (Nat.le_refl _)]
  rfl

theorem toBase36Digits_mem :
    ∀ n : Nat, ∀ c ∈ toBase36Digits n, ∃ d, d < 36 ∧ c = base36DigitChar d := by
  intro n
  induction n using Nat.strong_induction_on with
  | _ n ih =>
    intro c hc
    by_cases hn : n = 0
    · subst hn; simp [toBase36Digits_zero] at hc
    · rw [toBase36Digits_eq n hn] at hc
      rcases List.mem_append.mp hc with h1 | h2
      · exact ih (n / 36) (Nat.div_lt_self (Nat.pos_of_ne_zero hn) (by norm_num)) c h1
      · have : c = base36DigitChar (n % 36) := List.mem_singleton.mp h2
        exact ⟨n % 36, Nat.mod_lt n (by norm_num), this⟩

theorem toBase36Digits_ne_nil (n : Nat) (h : n ≠ 0) : toBase36Digits n ≠ [] := by
  rw [toBase36Digits_eq n h]
  simp

theorem parseDigitsAux_toBase36 :
    ∀ n acc : Nat, parseDigitsAux 36 acc (toBase36Digits n) =
      some (acc * 36 ^ (toBase36Digits n).length + n) := by
  intro n
  induction n using Nat.strong_induction_on with
  | _ n ih =>
    intro acc
    by_cases hn : n = 0
    · subst hn; simp [toBase36Digits_zero, parseDigitsAux]
    · rw [toBase36Digits_eq n hn, parseDigitsAux_append]
      have hlt : n / 36 < n := Nat.div_lt_self (Nat.pos_of_ne_zero hn) (by norm_num)
      rw [ih (n / 36) hlt acc]
      have hd := (base36DigitChar_props (n % 36) (Nat.mod_lt n (by norm_num))).1
      show parseDigitsAux 36 _ [base36DigitChar (n % 36)] = _
      unfold parseDigitsAux
      rw [hd]
      show some ((acc * 36 ^ (toBase36Digits (n / 36)).length + n / 36) * 36 + n % 36) = _
      have hdm : 36 * (n / 36) + n % 36 = n := Nat.div_add_mod n 36
      have hlen : (toBase36Digits (n / 36) ++ [base36DigitChar (n % 36)]).length =
          (toBase36Digits (n / 36)).length + 1 := by simp
      rw [hlen]
      congr 1
      have hexp : acc * 36 ^ ((toBase36Digits (n / 36)).length + 1) =
          acc * 36 ^ (toBase36Digits (n / 36)).length * 36 := by
        rw [pow_succ]; ring
      rw [hexp]
      omega

theorem parseDigitsAux_isSome_eq (b : Nat) :
    ∀ (l : List Char) (acc : Nat),
      (parseDigitsAux b acc l).isSome = l.all (fun c => (pyDigitVal b c).isSome) := by
  intro l
  induction l with
  | nil => intro acc; rfl
  | cons c cs ih =>
    intro acc
    cases h : pyDigitVal b c with
    | none => simp [parseDigitsAux, h]
    | some v => simp [parseDigitsAux, h, ih]

theorem pyDigitVal36_isSome (c : Char) :
    (pyDigitVal 36 c).isSome = isBase36CharCI c := by
  unfold pyDigitVal isBase36CharCI
  by_cases hA : (48 ≤ c.toNat && c.toNat ≤ 57) = true
  · have h36 : c.toNat - 48 < 36 := by
      simp only [Bool.and_eq_true, decide_eq_true_eq] at hA; omega
    simp [hA, h36]
  · by_cases hB : (97 ≤ c.toNat && c.toNat ≤ 122) = true
    · have h36 : c.toNat - 97 + 10 < 36 := by
        simp only [Bool.and_eq_true, decide_eq_true_eq] at hB; omega
      simp [hA, hB, h36]
    · by_cases hC : (65 ≤ c.toNat && c.toNat ≤ 90) = true
      · have h36 : c.toNat - 65 + 10 < 36 := by
          simp only [Bool.and_eq_true, decide_eq_true_eq] at hC; omega
        simp [hA, hB, hC, h36]
      · simp [hA, hB, hC]

theorem pyParseDigits_isSome_eq (b : Nat) (l : List Char) :
    (pyParseDigits b l).isSome =
      (!l.isEmpty && l.all (fun c => (pyDigitVal b c).isSome)) := by
  cases l with
  | nil => rfl
  | cons c cs =>
    show (parseDigitsAux b 0 (c :: cs)).isSome = _
    rw [parseDigitsAux_isSome_eq]
    rfl

theorem pyInt_ok_iff (b : Nat) (s : String) :
    (∃ n, pyInt b s = .ok n) ↔
      (match pyStrip s.data with
       | [] => False
       | c :: rest =>
         if c == '+' || c == '-' then (pyParseDigits b rest).isSome = true
         else (pyParseDigits b (c :: rest)).isSome = true) := by
  unfold pyInt
  cases hstrip : pyStrip s.data with
  | nil => simp
  | cons c rest =>
    by_cases hp : (c == '+') = true
    · simp only [hp, if_true, Bool.true_or, if_pos]
      cases hpd : pyParseDigits b rest with
      | none => simp [hpd]
      | some v => simp [hpd]
    · by_cases hm : (c == '-') = true
      · simp only [hp, hm, Bool.false_or, if_true, if_false]
        cases hpd : pyParseDigits b rest with
        | none => simp [hpd]
        | some v => simp [hpd]
      · simp only [hp, hm, Bool.false_or, if_false]
        cases hpd : pyParseDigits b (c :: rest) with
        | none => simp [hpd]
        | some v => simp [hpd]

/-- Claim C1, counterexample at the claimed boundary n = 0: the encoder's
digit loop runs zero times, producing the bare prefix "i-", whose remainder
is the empty base-36 literal — decoding raises ValueError instead of
returning 0. -/
theorem c1_roundtrip_counterexample :
    ec2_id_to_id (id_to_ec2_id 0) = Except.error Err.valueError ∧
      ec2_id_to_id (id_to_ec2_id 0) ≠ Except.ok 0 := by
  have h1 : ec2_id_to_id (id_to_ec2_id 0) = Except.error Err.valueError := rfl
  refine ⟨h1, fun h => ?_⟩
  rw [h1] at h
  exact Except.noConfusion h

/-- Claim C1 (amended): the identifier codec round-trips on every positive
integer — `ec2_id_to_id (id_to_ec2_id n) = n` for all n ≥ 1; the boundary
n = 0 is excluded because its encoding "i-" does not decode. -/
theorem c1_roundtrip_positive (n : Nat) (h : 1 ≤ n) :
    ec2_id_to_id (id_to_ec2_id n) = Except.ok (n : Int) := by
  have hne : n ≠ 0 := by omega
  have hmem := toBase36Digits_mem n
  have hspace : ∀ c ∈ toBase36Digits n, pyIsSpace c = false := by
    intro c hc
    obtain ⟨d, hd, rfl⟩ := hmem c hc
    exact (base36DigitChar_props d hd).2.1
  have hdata : (id_to_ec2_id n).data = 'i' :: '-' :: toBase36Digits n := rfl
  show pyInt 36 (String.mk ((id_to_ec2_id n).data.drop 2)) = Except.ok (n : Int)
  rw [hdata]
  show pyInt 36 (String.mk (toBase36Digits n)) = Except.ok (n : Int)
  obtain ⟨c, rest, hds⟩ : ∃ c rest, toBase36Digits n = c :: rest := by
    cases hd : toBase36Digits n with
    | nil => exact absurd hd (toBase36Digits_ne_nil n hne)
    | cons c rest => exact ⟨c, rest, rfl⟩
  obtain ⟨d, hd36, hcd⟩ := hmem c (hds ▸ List.mem_cons_self c rest)
  have hplus : (c == '+') = false := by
    rw [hcd]; exact (base36DigitChar_props d hd36).2.2.1
  have hminus : (c == '-') = false := by
    rw [hcd]; exact (base36DigitChar_props d hd36).2.2.2
  have hparse : parseDigitsAux 36 0 (toBase36Digits n) = some n := by
    rw [parseDigitsAux_toBase36 n 0]; simp
  show pyInt 36 (String.mk (toBase36Digits n)) = Except.ok (n : Int)
  unfold pyInt
  rw [show (String.mk (toBase36Digits n)).data = toBase36Digits n from rfl]
  rw [pyStrip_eq_self hspace, hds]
  simp only [hplus, hminus, Bool.false_eq_true, if_false]
  rw [show pyParseDigits 36 (c :: rest) = parseDigitsAux 36 0 (c :: rest) from rfl]
  rw [← hds, hparse]

/-- Witness for C1 (amended) at n = 37 (encoding "i-11"). -/
theorem c1_roundtrip_positive_witness :
    1 ≤ 37 ∧ ec2_id_to_id (id_to_ec2_id 37) = Except.ok (37 : Int) :=
  ⟨by decide, c1_roundtrip_positive 37 (by decide)⟩

/-- Claim C3, counterexample: the decoder never checks the `i-` prefix —
"x-10" decodes to 36 — and accepts characters outside [0-9a-z] in the
remainder — "i-A" decodes to 10.  Both contradict rejection of every string
not matching `^i-[0-9a-z]+$`. -/
theorem c3_decode_counterexample :
    ec2_id_to_id "x-10" = Except.ok 36 ∧ ec2_id_to_id "i-A" = Except.ok 10 := by
  exact ⟨rfl, rfl⟩

/-- Claim C3 (amended): decode drops the first two characters of its input
without inspecting them and succeeds exactly when the remainder, after
stripping surrounding whitespace, is an optionally-signed nonempty run of
base-36 digit characters [0-9a-zA-Z]; failure is a ValueError.  In
particular no `i-` prefix is required and uppercase digits are accepted. -/
theorem c3_decode_acceptance (s : String) :
    (∃ n, ec2_id_to_id s = Except.ok n) ↔
      looseBase36String (s.data.drop 2) = true := by
  unfold ec2_id_to_id
  rw [pyInt_ok_iff]
  unfold looseBase36String
  rw [show (String.mk (s.data.drop 2)).data = s.data.drop 2 from rfl]
  cases hstrip : pyStrip (s.data.drop 2) with
  | nil => simp
  | cons c rest =>
    by_cases hsign : (c == '+' || c == '-') = true
    · rcases Bool.or_eq_true_iff.mp hsign with hp | hm
      · simp only [hp, Bool.true_or, if_true, pyParseDigits_isSome_eq]
        simp [pyDigitVal36_isSome]
      · simp only [hm, Bool.or_true, if_true, pyParseDigits_isSome_eq]
        simp [pyDigitVal36_isSome]
    · have hp : (c == '+') = false := by
        cases h : (c == '+') with
        | false => rfl
        | true => exact absurd (by rw [h]; rfl) hsign
      have hm : (c == '-') = false := by
        cases h : (c == '-') with
        | false => rfl
        | true => exact absurd (by rw [h, Bool.or_true]) hsign
      simp only [hsign, hp, hm, Bool.false_or, if_false,
        pyParseDigits_isSome_eq]
      simp [pyDigitVal36_isSome]

/-- Witness for C3 (amended) at "i-zz": the acceptance side of the
characterization yields a successful decode. -/
theorem c3_decode_acceptance_witness :
    ∃ n, ec2_id_to_id "i-zz" = Except.ok n :=
  (c3_decode_acceptance "i-zz").mpr (by rfl)

theorem pyTruthy_none : pyTruthy none = false := rfl

theorem isSome_of_pyTruthy {o : Option String} (h : pyTruthy o = true) :
    o.isSome = true := by
  cases o with
  | none => exact absurd h (by simp [pyTruthy])
  | some s => rfl

theorem pyTruthy_some_of_ne (s : String) (h : s ≠ "") :
    pyTruthy (some s) = true := by
  unfold pyTruthy
  cases he : s.isEmpty with
  | false => simp [he]
  | true => exact absurd ((String.isEmpty_iff s).mp he) h

/-- Claim C2: with protocol and both ports supplied, the canonicalizer
accepts from_port=0,to_port=65535 over the default CIDR, rejects
from_port=0,to_port=65536 with the port-range error, accepts the sentinel
pair -1,-1 with ICMP, and rejects any protocol whose uppercasing is outside
TCP/UDP/ICMP with the protocol error. -/
theorem c2_port_protocol_validation :
    (revoke_rule_args_to_dict (fun _ _ => none) "proj" (some "65535") (some "0")
        (some "TCP") none none none =
      Except.ok (some { cidr := some "0.0.0.0/0", protocol := some "TCP",
                        from_port := some 0, to_port := some 65535 })) ∧
    (revoke_rule_args_to_dict (fun _ _ => none) "proj" (some "65536") (some "0")
        (some "TCP") none none none =
      Except.error (Err.invalidInput "Invalid port range")) ∧
    (revoke_rule_args_to_dict (fun _ _ => none) "proj" (some "-1") (some "-1")
        (some "ICMP") none none none =
      Except.ok (some { cidr := some "0.0.0.0/0", protocol := some "ICMP",
                        from_port := some (-1), to_port := some (-1) })) ∧
    (∀ (lookup : String → String → Option Nat) (pid proto fp tp : String)
        (fpv tpv : Int),
      proto ≠ "" →
      pyInt 10 fp = Except.ok fpv →
      pyInt 10 tp = Except.ok tpv →
      (["TCP", "UDP", "ICMP"].contains (pyUpper proto)) = false →
      revoke_rule_args_to_dict lookup pid (some tp) (some fp) (some proto)
          none none none =
        Except.error (Err.invalidInput (proto ++ " is not a valid ipProtocol"))) := by
  refine ⟨rfl, rfl, rfl, ?_⟩
  intro lookup pid proto fp tp fpv tpv hproto hfp htp hcontains
  have h1 : pyTruthy (some proto) = true := pyTruthy_some_of_ne proto hproto
  have h2 : pyTruthy (some fp) = true := by
    apply pyTruthy_some_of_ne
    intro he
    subst he
    exact Except.noConfusion hfp
  have h3 : pyTruthy (some tp) = true := by
    apply pyTruthy_some_of_ne
    intro he
    subst he
    exact Except.noConfusion htp
  have hc2 : ¬(pyUpper proto = "TCP") ∧ ¬(pyUpper proto = "UDP") ∧
      ¬(pyUpper proto = "ICMP") := by simpa using hcontains
  unfold revoke_rule_args_to_dict
  simp [pyTruthy_none, h1, h2, h3, hfp, htp, hc2.1, hc2.2.1, hc2.2.2]

/-- Witness for C2's universally quantified conjunct, at protocol "gre". -/
theorem c2_port_protocol_validation_witness :
    revoke_rule_args_to_dict (fun _ _ => none) "proj" (some "2") (some "1")
        (some "gre") none none none =
      Except.error (Err.invalidInput "gre is not a valid ipProtocol") :=
  c2_port_protocol_validation.2.2.2 (fun _ _ => none) "proj" "gre" "1" "2" 1 2
    (by decide) (by rfl) (by rfl) (by rfl)

/-- Claim C4: a CIDR-based rule (explicit valid CIDR or the 0.0.0.0/0
default) with protocol or either port absent canonicalizes to the
"no rule produced" signal (`.ok none`, not an exception), while a
group-reference rule with protocol/ports absent still produces a
group_id-keyed value set. -/
theorem c4_cidr_requires_ports_group_does_not :
    (∀ (lookup : String → String → Option Nat) (pid : String)
        (to_port from_port ip_protocol cidr_ip sgo : Option String),
      (pyTruthy ip_protocol && pyTruthy from_port && pyTruthy to_port) = false →
      pyTruthy cidr_ip = false ∨ ipy_IP_valid (cidr_ip.getD "") = true →
      revoke_rule_args_to_dict lookup pid to_port from_port ip_protocol cidr_ip
          none sgo = Except.ok none) ∧
    (∀ (lookup : String → String → Option Nat) (pid : String)
        (to_port from_port ip_protocol sgo : Option String)
        (sgn : String) (gid : Nat),
      sgn ≠ "" →
      lookup (get_source_project_id pid sgo) sgn = some gid →
      (pyTruthy ip_protocol && pyTruthy from_port && pyTruthy to_port) = false →
      revoke_rule_args_to_dict lookup pid to_port from_port ip_protocol none
          (some sgn) sgo = Except.ok (some { group_id := some gid })) := by
  constructor
  · intro lookup pid tp fp proto cidr sgo habs hcidr
    unfold revoke_rule_args_to_dict
    cases hc : pyTruthy cidr with
    | true =>
      have hvalid : ipy_IP_valid (cidr.getD "") = true := by
        rcases hcidr with h | h
        · rw [hc] at h; exact absurd h (by simp)
        · exact h
      have his : cidr.isSome = true := isSome_of_pyTruthy hc
      simp [hc, hvalid, habs, pyTruthy_none, his]
    | false => simp [hc, habs, pyTruthy_none]
  · intro lookup pid tp fp proto sgo sgn gid hsgn hlookup habs
    have h1 : pyTruthy (some sgn) = true := pyTruthy_some_of_ne sgn hsgn
    unfold revoke_rule_args_to_dict
    simp only [h1, Option.getD_some, hlookup, if_true, habs,
      Bool.false_eq_true, if_false]
    rfl

/-- Witness for C4: the default-CIDR case with everything absent yields
`.ok none`, and a pure group reference (group id 7) yields the
group_id-keyed value set. -/
theorem c4_cidr_requires_ports_group_does_not_witness :
    revoke_rule_args_to_dict (fun _ _ => none) "proj" none none none none
        none none = Except.ok none ∧
      revoke_rule_args_to_dict (fun _ name => if name = "peer" then some 7 else none)
          "proj" none none none none (some "peer") none =
        Except.ok (some { group_id := some 7 }) :=
  ⟨c4_cidr_requires_ports_group_does_not.1 (fun _ _ => none) "proj"
      none none none none none (by rfl) (Or.inl rfl),
    c4_cidr_requires_ports_group_does_not.2
      (fun _ name => if name = "peer" then some 7 else none) "proj"
      none none none none "peer" 7 (by decide) (by rfl) (by rfl)⟩

theorem revoke_first_match_none {rules : List Rule} {criteria : RuleValues}
    (h : ∀ r ∈ rules, rule_matches_criteria r criteria = false) :
    revoke_first_match rules criteria = none := by
  induction rules with
  | nil => rfl
  | cons r rest ih =>
    unfold revoke_first_match
    rw [h r (List.mem_cons_self r rest)]
    rw [ih (fun r2 hr2 => h r2 (List.mem_cons_of_mem r hr2))]
    simp

theorem revoke_first_match_found {criteria : RuleValues} :
    ∀ (pre : List Rule) (r : Rule) (post : List Rule),
      (∀ r2 ∈ pre, rule_matches_criteria r2 criteria = false) →
      rule_matches_criteria r criteria = true →
      revoke_first_match (pre ++ r :: post) criteria = some (pre ++ post) := by
  intro pre
  induction pre with
  | nil =>
    intro r post _ hr
    rw [List.nil_append]
    unfold revoke_first_match
    rw [hr]
    simp
  | cons p rest ih =>
    intro r post hpre hr
    show revoke_first_match (p :: (rest ++ r :: post)) criteria = _
    unfold revoke_first_match
    rw [hpre p (List.mem_cons_self p rest)]
    rw [ih r post (fun r2 hr2 => hpre r2 (List.mem_cons_of_mem p hr2)) hr]
    simp

/-- Claim C5: duplicate detection uses canonical rule equality — the
existence check is true exactly when some stored rule matches the value set
(group-referencing value sets compare `group_id` alone; CIDR value sets
compare cidr, from_port, to_port and protocol exactly); authorizing a rule
whose canonical value set matches an existing rule fails with the duplicate
ApiError; a group-referencing rule whose source group id is referenced by no
stored rule of the group is inserted without collision. -/
theorem c5_duplicate_canonical_equality :
    (∀ (rules : List Rule) (v : RuleValues),
      security_group_rule_exists rules v = true ↔
        ∃ r ∈ rules,
          (match v.group_id with
           | some gid => r.group_id = some gid
           | none => r.cidr = v.cidr ∧ r.from_port = v.from_port ∧
               r.to_port = v.to_port ∧ r.protocol = v.protocol)) ∧
    (∀ (lookup : String → String → Option Nat) (pid : String)
        (group : SecurityGroup)
        (to_port from_port ip_protocol cidr_ip sgn sgo : Option String)
        (v0 : RuleValues),
      revoke_rule_args_to_dict lookup pid to_port from_port ip_protocol cidr_ip
          sgn sgo = Except.ok (some v0) →
      security_group_rule_exists group.rules
          { v0 with parent_group_id := some group.id } = true →
      authorize_security_group_ingress lookup pid group to_port from_port
          ip_protocol cidr_ip sgn sgo =
        Except.error (Err.apiError
          ("This rule already exists in group " ++ group.name))) ∧
    (∀ (lookup : String → String → Option Nat) (pid : String)
        (group : SecurityGroup)
        (to_port from_port ip_protocol cidr_ip sgn sgo : Option String)
        (v0 : RuleValues) (gid : Nat),
      revoke_rule_args_to_dict lookup pid to_port from_port ip_protocol cidr_ip
          sgn sgo = Except.ok (some v0) →
      v0.group_id = some gid →
      (∀ r ∈ group.rules, r.group_id ≠ some gid) →
      authorize_security_group_ingress lookup pid group to_port from_port
          ip_protocol cidr_ip sgn sgo =
        Except.ok { group with rules := group.rules ++
          [rule_of_values { v0 with parent_group_id := some group.id }] }) := by
  refine ⟨?_, ?_, ?_⟩
  · intro rules v
    unfold security_group_rule_exists
    rw [List.any_eq_true]
    apply exists_congr
    intro r
    apply and_congr_right
    intro _
    cases v.group_id with
    | some gid => simp
    | none => simp [Bool.and_eq_true, and_assoc]
  · intro lookup pid group tp fp proto cidr sgn sgo v0 hcanon hexists
    unfold authorize_security_group_ingress
    rw [hcanon]
    simp [hexists]
  · intro lookup pid group tp fp proto cidr sgn sgo v0 gid hcanon hgid hnoref
    have hex : security_group_rule_exists group.rules
        { v0 with parent_group_id := some group.id } = false := by
      unfold security_group_rule_exists
      rw [List.any_eq_false]
      intro r hr
      simp only [hgid]
      exact fun hc => hnoref r hr (beq_iff_eq.mp hc)
    unfold authorize_security_group_ingress
    simp only [hcanon]
    simp [hex]

/-- Witness for C5: authorizing TCP port 22 over the default CIDR on a group
already holding the canonically equal rule fails with the duplicate
ApiError. -/
theorem c5_duplicate_canonical_equality_witness :
    authorize_security_group_ingress (fun _ _ => none) "proj"
        { id := 1, name := "default", project_id := "proj", description := "d",
          rules := [{ cidr := some "0.0.0.0/0", protocol := some "TCP",
                      from_port := some 22, to_port := some 22,
                      parent_group_id := some 1 }] }
        (some "22") (some "22") (some "TCP") none none none =
      Except.error (Err.apiError "This rule already exists in group default") :=
  c5_duplicate_canonical_equality.2.1 (fun _ _ => none) "proj"
    { id := 1, name := "default", project_id := "proj", description := "d",
      rules := [{ cidr := some "0.0.0.0/0", protocol := some "TCP",
                  from_port := some 22, to_port := some 22,
                  parent_group_id := some 1 }] }
    (some "22") (some "22") (some "TCP") none none none
    { cidr := some "0.0.0.0/0", protocol := some "TCP",
      from_port := some 22, to_port := some 22 }
    (by rfl) (by rfl)

/-- Claim C6: revocation canonicalizes into a criteria set and matches a
stored rule exactly on the fields present in it (absent fields are ignored);
it removes precisely the first matching rule of the group, leaving every
other rule untouched, and fails with the no-matching-rule ApiError — without
touching the rule list — when no rule matches. -/
theorem c6_revoke_first_match_only :
    (∀ (lookup : String → String → Option Nat) (pid : String)
        (group : SecurityGroup)
        (to_port from_port ip_protocol cidr_ip sgn sgo : Option String)
        (criteria : RuleValues),
      revoke_rule_args_to_dict lookup pid to_port from_port ip_protocol cidr_ip
          sgn sgo = Except.ok (some criteria) →
      (∀ r ∈ group.rules, rule_matches_criteria r criteria = false) →
      revoke_security_group_ingress lookup pid group to_port from_port
          ip_protocol cidr_ip sgn sgo =
        Except.error (Err.apiError "No rule for the specified parameters.")) ∧
    (∀ (lookup : String → String → Option Nat) (pid : String)
        (group : SecurityGroup)
        (to_port from_port ip_protocol cidr_ip sgn sgo : Option String)
        (criteria : RuleValues) (pre : List Rule) (r : Rule) (post : List Rule),
      revoke_rule_args_to_dict lookup pid to_port from_port ip_protocol cidr_ip
          sgn sgo = Except.ok (some criteria) →
      group.rules = pre ++ r :: post →
      (∀ r2 ∈ pre, rule_matches_criteria r2 criteria = false) →
      rule_matches_criteria r criteria = true →
      revoke_security_group_ingress lookup pid group to_port from_port
          ip_protocol cidr_ip sgn sgo =
        Except.ok { group with rules := pre ++ post }) ∧
    (∀ (r : Rule) (criteria : RuleValues),
      rule_matches_criteria r criteria = true ↔
        (∀ v, criteria.group_id = some v → r.group_id = some v) ∧
        (∀ v, criteria.cidr = some v → r.cidr = some v) ∧
        (∀ v, criteria.protocol = some v → r.protocol = some v) ∧
        (∀ v, criteria.from_port = some v → r.from_port = some v) ∧
        (∀ v, criteria.to_port = some v → r.to_port = some v) ∧
        (∀ v, criteria.parent_group_id = some v → r.parent_group_id = some v)) := by
  refine ⟨?_, ?_, ?_⟩
  · intro lookup pid group tp fp proto cidr sgn sgo criteria hcanon hnone
    unfold revoke_security_group_ingress
    simp only [hcanon]
    rw [revoke_first_match_none hnone]
  · intro lookup pid group tp fp proto cidr sgn sgo criteria pre r post
      hcanon hrules hpre hr
    unfold revoke_security_group_ingress
    simp only [hcanon, hrules]
    rw [revoke_first_match_found pre r post hpre hr]
  · intro r criteria
    unfold rule_matches_criteria
    obtain ⟨g, c, p, f, t, pg⟩ := criteria
    cases g <;> cases c <;> cases p <;> cases f <;> cases t <;> cases pg <;>
      simp [Bool.and_eq_true, and_assoc]

/-- Witness for C6: on a group holding a non-matching group-reference rule
followed by the TCP port 22 CIDR rule, revoking TCP port 22 removes exactly
the second rule and keeps the first. -/
theorem c6_revoke_first_match_only_witness :
    revoke_security_group_ingress (fun _ _ => none) "proj"
        { id := 1, name := "default", project_id := "proj", description := "d",
          rules := [{ group_id := some 9, parent_group_id := some 1 },
                    { cidr := some "0.0.0.0/0", protocol := some "TCP",
                      from_port := some 22, to_port := some 22,
                      parent_group_id := some 1 }] }
        (some "22") (some "22") (some "TCP") none none none =
      Except.ok
        { id := 1, name := "default", project_id := "proj", description := "d",
          rules := [{ group_id := some 9, parent_group_id := some 1 }] } :=
  c6_revoke_first_match_only.2.1 (fun _ _ => none) "proj"
    { id := 1, name := "default", project_id := "proj", description := "d",
      rules := [{ group_id := some 9, parent_group_id := some 1 },
                { cidr := some "0.0.0.0/0", protocol := some "TCP",
                  from_port := some 22, to_port := some 22,
                  parent_group_id := some 1 }] }
    (some "22") (some "22") (some "TCP") none none none
    { cidr := some "0.0.0.0/0", protocol := some "TCP",
      from_port := some 22, to_port := some 22 }
    [{ group_id := some 9, parent_group_id := some 1 }]
    { cidr := some "0.0.0.0/0", protocol := some "TCP",
      from_port := some 22, to_port := some 22, parent_group_id := some 1 }
    []
    (by rfl) (by rfl) (by decide) (by rfl)

/-- Claim C7: run_instances computes max_count with default 1 and min_count
defaulting to the computed max_count when absent; the run path formats the
one reservation produced, returning its single reservation entry, and fails
with the assertion error whenever formatting yields a number of reservation
entries different from one; with a nonempty creation the run call reduces to
formatting the listing of the first created instance's reservation id. -/
theorem c7_run_counts_and_single_reservation :
    (run_counts none none = Except.ok (1, 1)) ∧
    (∀ (s : String) (v : Int),
      pyInt 10 s = Except.ok v → run_counts (some s) none = Except.ok (v, v)) ∧
    (∀ (is_admin : Bool) (vpn_image_id : String)
        (services : String → List String) (instances : List Instance),
      (format_instances is_admin vpn_image_id services instances).length ≠ 1 →
      format_run_instances is_admin vpn_image_id services instances =
        Except.error Err.assertionError) ∧
    (∀ (is_admin : Bool) (vpn_image_id : String)
        (services : String → List String) (instances : List Instance)
        (r : FormattedReservation),
      format_instances is_admin vpn_image_id services instances = [r] →
      format_run_instances is_admin vpn_image_id services instances =
        Except.ok r) ∧
    (∀ (max_count min_count : Option String)
        (create : Int → Int → List Instance)
        (list_by_reservation : String → List Instance)
        (is_admin : Bool) (vpn_image_id : String)
        (services : String → List String)
        (mc mn : Int) (inst : Instance) (rest : List Instance),
      run_counts max_count min_count = Except.ok (mc, mn) →
      create mn mc = inst :: rest →
      run_instances max_count min_count create list_by_reservation is_admin
          vpn_image_id services =
        format_run_instances is_admin vpn_image_id services
          (list_by_reservation inst.reservation_id)) := by
  refine ⟨rfl, ?_, ?_, ?_, ?_⟩
  · intro s v h
    unfold run_counts
    simp [h]
  · intro a vp z l hlen
    unfold format_run_instances
    cases h : format_instances a vp z l with
    | nil => rfl
    | cons r rest =>
      cases rest with
      | nil => exact absurd (by rw [h]; rfl) hlen
      | cons r2 rest2 => rfl
  · intro a vp z l r h
    unfold format_run_instances
    rw [h]
  · intro maxc minc create listby a vp z mc mn inst rest hcounts hcreate
    unfold run_instances
    simp only [hcounts, hcreate]

/-- Witness for C7: with min_count absent, a supplied max_count of "5" gives
the pair (5, 5). -/
theorem c7_run_counts_and_single_reservation_witness :
    run_counts (some "5") none = Except.ok (5, 5) :=
  c7_run_counts_and_single_reservation.2.1 "5" 5 (by rfl)

/-- Claim C8: creating a key pair that already exists for the same (user,
name) fails with Duplicate before any key material is generated — the result
is the same for every possible generator output and the stored key-pair set
is returned unchanged. -/
theorem c8_keypair_duplicate_before_generation :
    ∀ (st : List KeyPair) (user_id key_name : String),
      (key_pair_get st user_id key_name).isSome = true →
      ∀ generated : KeyMaterial,
        gen_key st user_id key_name generated =
          (Except.error (Err.duplicate
            ("The key_pair " ++ key_name ++ " already exists")), st) := by
  intro st uid kname h gen
  unfold gen_key
  cases hk : key_pair_get st uid kname with
  | none => rw [hk] at h; exact absurd h (by simp)
  | some kp => rfl

/-- Witness for C8: re-creating the stored pair ("user1", "mykey") fails
with Duplicate and leaves the table as it was, regardless of the generator
output supplied. -/
theorem c8_keypair_duplicate_before_generation_witness :
    gen_key [{ user_id := "user1", name := "mykey", public_key := "pub",
               fingerprint := "fp" }] "user1" "mykey"
        { private_key := "newpriv", public_key := "newpub",
          fingerprint := "newfp" } =
      (Except.error (Err.duplicate "The key_pair mykey already exists"),
        [{ user_id := "user1", name := "mykey", public_key := "pub",
           fingerprint := "fp" }]) :=
  c8_keypair_duplicate_before_generation
    [{ user_id := "user1", name := "mykey", public_key := "pub",
       fingerprint := "fp" }] "user1" "mykey" (by rfl)
    { private_key := "newpriv", public_key := "newpub",
      fingerprint := "newfp" }

/-- Claim C9: key-pair deletion always returns the success value True —
deleting a non-existent pair swallows NotFound and succeeds silently, with
the stored set unchanged, exactly like deleting an existing pair. -/
theorem c9_delete_key_pair_tolerant :
    (∀ (st : List KeyPair) (user_id key_name : String),
      (delete_key_pair st user_id key_name).1 = true) ∧
    (∀ (st : List KeyPair) (user_id key_name : String),
      (key_pair_get st user_id key_name).isSome = false →
      delete_key_pair st user_id key_name = (true, st)) := by
  constructor
  · intro st uid kname
    unfold delete_key_pair
    cases h : key_pair_destroy st uid kname with
    | ok st2 => simp
    | error e => simp
  · intro st uid kname h
    unfold delete_key_pair key_pair_destroy
    rw [h]
    simp

/-- Witness for C9: deleting from an empty key-pair table returns True with
the table unchanged. -/
theorem c9_delete_key_pair_tolerant_witness :
    delete_key_pair [] "user1" "nosuchkey" = (true, []) :=
  c9_delete_key_pair_tolerant.2 [] "user1" "nosuchkey" (by rfl)

/-- Claim C10: a volume whose attach_status is not "attached" is formatted
with an attachmentSet of exactly one empty placeholder entry (never an empty
collection); an attached volume's attachmentSet is the single populated entry
carrying the attach time, the mountpoint as device, the instance's external
id and the "attached" status. -/
theorem c10_volume_attachment_placeholder :
    ∀ (is_admin : Bool) (volume : Volume),
      (volume.attach_status ≠ "attached" →
        (format_volume is_admin volume).attachmentSet =
          [AttachmentEntry.empty]) ∧
      (volume.attach_status = "attached" →
        (format_volume is_admin volume).attachmentSet =
          [AttachmentEntry.entry volume.attach_time false volume.mountpoint
            (volume.instance_ref.map (fun i => id_to_ec2_id i.id)) "attached"
            volume.ec2_id]) := by
  intro a v
  constructor
  · intro h
    unfold format_volume
    have hb : (v.attach_status == "attached") = false :=
      beq_eq_false_iff_ne.mpr h
    simp [hb]
  · intro h
    unfold format_volume
    simp [h]

/-- Witness for C10: a concrete detached volume formats to the single empty
placeholder attachment entry. -/
theorem c10_volume_attachment_placeholder_witness :
    (format_volume false
        { id := 3, status := "available", size := 10, availability_zone := "z",
          created_at := "t0", user_id := "u", host := "h", mountpoint := "m",
          attach_status := "detached", attach_time := "", ec2_id := "vol-3",
          display_name := none, display_description := none,
          instance_ref := none }).attachmentSet = [AttachmentEntry.empty] :=
  (c10_volume_attachment_placeholder false
      { id := 3, status := "available", size := 10, availability_zone := "z",
        created_at := "t0", user_id := "u", host := "h", mountpoint := "m",
        attach_status := "detached", attach_time := "", ec2_id := "vol-3",
        display_name := none, display_description := none,
        instance_ref := none }).1 (by decide)

end NovaEc2
